import Mathlib

/-!
Verification of the wallpaper-SaaS backend (`src/main.py`): token service,
subscription state machine, and entitlement/watermark gating.

Modelling conventions (shallow embedding of the Python source):
* MongoDB documents / Python dicts are association lists `Doc := List (String × Val)`
  with Python-dict update semantics (replace in place, else append).
* `Val` covers the JSON-ish values the endpoints manipulate; datetimes are
  modelled as integer Unix timestamps (seconds).
* The `jose` JWT layer is modelled abstractly: a token is either malformed or a
  claims document signed with a key; `jwtDecode` succeeds exactly when the key
  matches and the `exp` claim (if an integer) has not passed — the MAC itself is
  not modelled, only its contract.
* Database lookups (`find_one`) are passed in as functions; `datetime.now` is a
  `now : Int` parameter.
-/

/-- A Python/JSON value as used by the endpoints. -/
inductive Val where
  | vNull
  | vBool (b : Bool)
  | vInt (n : Int)
  | vStr (s : String)
  deriving DecidableEq, Repr

/-- A MongoDB document / Python dict as an association list. -/
abbrev Doc := List (String × Val)

/-- Python truthiness of a value (`bool(v)`). -/
def valTruthy : Val → Bool
  | .vNull => false
  | .vBool b => b
  | .vInt n => n != 0
  | .vStr s => s != ""

/-- Lookup `d.get(k)`: `some v` when the key is present. -/
def Doc.get : Doc → String → Option Val
  | [], _ => none
  | (k', v) :: rest, k => if k' = k then some v else Doc.get rest k

/-- Lookup `d.get(k)` as Python sees it: missing key yields `None`. -/
def Doc.pyGet (d : Doc) (k : String) : Val := (Doc.get d k).getD .vNull

/-- Lookup with default, `d.get(k, default)`. -/
def Doc.getD (d : Doc) (k : String) (v₀ : Val) : Val := (Doc.get d k).getD v₀

/-- Assignment `d[k] = v`: replace in place if present, else append (Python dict / Mongo `$set`). -/
def Doc.set : Doc → String → Val → Doc
  | [], k, v => [(k, v)]
  | (k', v') :: rest, k, v =>
    if k' = k then (k, v) :: rest else (k', v') :: Doc.set rest k v

/-- Removal `d.pop(k, None)`: remove the key if present. -/
def Doc.pop (d : Doc) (k : String) : Doc := d.filter (fun p => p.1 ≠ k)

/-- Python truthiness of `d.get(k)` (`None` is falsy). -/
def truthy : Option Val → Bool
  | none => false
  | some v => valTruthy v

/-- Python `str(v)`. -/
def Val.pyStr : Val → String
  | .vNull => "None"
  | .vBool b => if b then "True" else "False"
  | .vInt n => toString n
  | .vStr s => s

/-- Python `a or b` on values (truthiness-based), as in `w.get("thumbnail_url") or w.get("image_url")`. -/
def pyOr (a b : Val) : Val := if valTruthy a then a else b

/-- Python `s.partition(c)` for a single-character separator: split at the first
occurrence; if absent return `(s, "", "")`. -/
def partitionChar (s : String) (c : Char) : String × String × String :=
  let pre := s.toList.takeWhile (fun x => x != c)
  match s.toList.dropWhile (fun x => x != c) with
  | [] => (s, "", "")
  | _ :: tail => (pre.asString, c.toString, tail.asString)

/-- Python `s.lower()` (ASCII, as used on the auth scheme). -/
def pyLower (s : String) : String := (s.toList.map Char.toLower).asString

/-- An HTTP error raised by an endpoint (`HTTPException(status_code, detail)`). -/
structure HErr where
  status : Nat
  detail : String
  deriving DecidableEq, Repr

/-- A JWT: either undecodable bytes or a claims document signed with a key.
The MAC scheme is abstracted to "decoding succeeds iff the keys agree". -/
inductive JwtToken where
  | malformed
  | signed (claims : Doc) (key : String)
  deriving DecidableEq, Repr

/-- The claims a token carries (empty for malformed bytes). -/
def JwtToken.claims : JwtToken → Doc
  | .malformed => []
  | .signed c _ => c

/-- The constant `SECRET_KEY = os.getenv("JWT_SECRET", "supersecret-key-change")` (default value). -/
def SECRET_KEY : String := "supersecret-key-change"

/-- The constant `ACCESS_TOKEN_EXPIRE_MINUTES = 60 * 24 * 7` minutes, i.e. 7 days. -/
def ACCESS_TOKEN_EXPIRE_MINUTES : Int := 60 * 24 * 7

/-- Decoding `jwt.decode(token, key, algorithms=[ALGORITHM])` at time `now`: fails on
malformed input or a signature mismatch, and raises `ExpiredSignatureError`
(a `JWTError`) when the `exp` claim has passed. -/
def jwtDecode (t : JwtToken) (key : String) (now : Int) : Except Unit Doc :=
  match t with
  | .malformed => .error ()
  | .signed claims k =>
    if k ≠ key then .error ()
    else
      match Doc.get claims "exp" with
      | some (.vInt e) => if e < now then .error () else .ok claims
      | _ => .ok claims

/-- Issuance `create_access_token(data, expires_delta)`: copies `data`, adds
`exp = now + (expires_delta or timedelta(minutes=ACCESS_TOKEN_EXPIRE_MINUTES))`
and signs with `SECRET_KEY` (`expires_delta` in seconds here). -/
def create_access_token (now : Int) (data : Doc) (expires_delta : Option Int) : JwtToken :=
  let expire := now + (expires_delta.getD (ACCESS_TOKEN_EXPIRE_MINUTES * 60))
  .signed (Doc.set data "exp" (.vInt expire)) SECRET_KEY

/-- Token verification inside `get_current_user` (main.py lines 86-92): decode the
token, then require a present, non-null `sub` claim; any failure is a 401. -/
def verify (t : JwtToken) (now : Int) : Except HErr Val :=
  match jwtDecode t SECRET_KEY now with
  | .error _ => .error ⟨401, "Invalid token"⟩
  | .ok payload =>
    match Doc.get payload "sub" with
    | none => .error ⟨401, "Invalid token"⟩
    | some .vNull => .error ⟨401, "Invalid token"⟩
    | some v => .ok v

/-- Dependency `get_current_user` (main.py lines 80-100): parse the `Authorization` header,
verify the bearer token, look the user up, and return the record with `_id`
replaced by a string `id`. `findUser` models `db["user"].find_one({"_id": ...})`. -/
def get_current_user (tokenOf : String → JwtToken) (now : Int)
    (findUser : Val → Option Doc) (authorization : Option String) : Except HErr Doc :=
  match authorization with
  | none => .error ⟨401, "Not authenticated"⟩
  | some auth =>
    let parts := partitionChar auth ' '
    let scheme := parts.1
    let token := parts.2.2
    if pyLower scheme ≠ "bearer" ∨ token = "" then .error ⟨401, "Invalid auth header"⟩
    else
      match verify (tokenOf token) now with
      | .error e => .error e
      | .ok uid =>
        match findUser uid with
        | none => .error ⟨401, "User not found"⟩
        | some user =>
          .ok (Doc.pop (Doc.set user "id" (.vStr (Val.pyStr (Doc.pyGet user "_id")))) "_id")

/-- Endpoint `me` (main.py lines 160-162): returns the authenticated user record as-is. -/
def me (tokenOf : String → JwtToken) (now : Int)
    (findUser : Val → Option Doc) (authorization : Option String) : Except HErr Doc :=
  get_current_user tokenOf now findUser authorization

/-- The user document inserted by `register` (main.py lines 135-145). -/
def registerDoc (now : Int) (name email password_hash : String) : Doc :=
  [("name", .vStr name), ("email", .vStr email), ("password_hash", .vStr password_hash),
   ("role", .vStr "user"), ("subscribed", .vBool false), ("plan", .vStr "free"),
   ("plan_ends_at", .vNull), ("created_at", .vInt now), ("updated_at", .vInt now)]

/-- Endpoint `register` (main.py lines 130-148): reject duplicate emails, insert the new
user (Mongo adds `_id = newId`), and return the updated store with an access
token for the new id. -/
def register (store : List Doc) (now : Int) (newId name email password_hash : String) :
    Except HErr (List Doc × JwtToken) :=
  if store.any (fun u => Doc.get u "email" == some (.vStr email)) then
    .error ⟨400, "Email already registered"⟩
  else
    let doc := Doc.set (registerDoc now name email password_hash) "_id" (.vStr newId)
    .ok (store ++ [doc], create_access_token now [("sub", .vStr newId)] none)

/-- The valid plans checked by `subscribe`: `["free", "pro", "elite"]`. -/
def VALID_PLANS : List String := ["free", "pro", "elite"]

/-- Endpoint `subscribe` (main.py lines 166-180): reject an invalid plan with 400,
otherwise set `plan`, `subscribed = (plan != "free")`,
`plan_ends_at = now + 30 days` when subscribing else `None`, and `updated_at`
on the user; return the updated user document and the response body. -/
def subscribe (now : Int) (plan : String) (user : Doc) : Except HErr (Doc × Doc) :=
  if ¬ VALID_PLANS.contains plan then .error ⟨400, "Invalid plan"⟩
  else
    let subscribed := plan != "free"
    let ends_at := if subscribed then Val.vInt (now + 30 * 86400) else Val.vNull
    let user' :=
      Doc.set (Doc.set (Doc.set (Doc.set user "plan" (.vStr plan))
        "subscribed" (.vBool subscribed)) "plan_ends_at" ends_at) "updated_at" (.vInt now)
    .ok (user', [("status", .vStr "ok"), ("plan", .vStr plan),
                 ("subscribed", .vBool subscribed), ("plan_ends_at", ends_at)])

/-- The user document as stored after a `subscribe` call (unchanged on error). -/
def subscribeState (now : Int) (plan : String) (user : Doc) : Doc :=
  match subscribe now plan user with
  | .ok (u', _) => u'
  | .error _ => user

/-- The watermark gating applied per item in `list_wallpapers`
(main.py lines 236-237): the served `image_url` and the `watermarked` flag. -/
def applyContentPolicy (imageUrl : Val) (subscribed : Bool) : Val × Bool :=
  ((if subscribed then imageUrl else .vStr (imageUrl.pyStr ++ "?wm=1")), !subscribed)

/-- One response item of `list_wallpapers` (main.py lines 227-238). -/
def wallpaperItem (subscribed : Bool) (w : Doc) : Doc :=
  [("id", .vStr (Doc.pyGet w "_id").pyStr),
   ("title", Doc.pyGet w "title"),
   ("category", Doc.pyGet w "category"),
   ("resolution", Doc.pyGet w "resolution"),
   ("thumbnail_url", pyOr (Doc.pyGet w "thumbnail_url") (Doc.pyGet w "image_url")),
   ("is_live", Doc.getD w "is_live" (.vBool false)),
   ("author", Doc.pyGet w "author"),
   ("downloads", Doc.getD w "downloads" (.vInt 0)),
   ("image_url", (applyContentPolicy (Doc.pyGet w "image_url") subscribed).1),
   ("watermarked", .vBool (applyContentPolicy (Doc.pyGet w "image_url") subscribed).2)]

/-- The optional-auth block of `list_wallpapers` (main.py lines 208-219): any
failure — missing/empty header, undecodable token, missing/falsy `sub`, unknown
user — is swallowed and leaves `subscribed = False`. There is no scheme check:
the header is split at the first space and the rest is decoded. -/
def listSubscribed (tokenOf : String → JwtToken) (now : Int)
    (findUser : Val → Option Doc) (authorization : Option String) : Bool :=
  match authorization with
  | none => false
  | some a =>
    if a = "" then false
    else
      let token := (partitionChar a ' ').2.2
      match jwtDecode (tokenOf token) SECRET_KEY now with
      | .error _ => false
      | .ok payload =>
        let uid := Doc.pyGet payload "sub"
        if valTruthy uid then
          match findUser uid with
          | none => false
          | some user => truthy (Doc.get user "subscribed")
        else false

/-- The response of `list_wallpapers`. -/
structure ListResp where
  items : List Doc
  subscribed : Bool
  deriving DecidableEq, Repr

/-- Endpoint `list_wallpapers` (main.py lines 205-240): resolve subscription status from
the optional header, filter by category, truncate to `limit`, and build items.
`wallpapers` stands for the stored collection (sorting is left to the store). -/
def list_wallpapers (tokenOf : String → JwtToken) (now : Int)
    (findUser : Val → Option Doc) (wallpapers : List Doc)
    (category : Option String) (limit : Nat) (authorization : Option String) : ListResp :=
  let subscribed := listSubscribed tokenOf now findUser authorization
  let filtered :=
    match category with
    | none => wallpapers
    | some c => wallpapers.filter (fun w => Doc.get w "category" == some (Val.vStr c))
  { items := (filtered.take limit).map (wallpaperItem subscribed), subscribed := subscribed }

/-- Mongo `{"$inc": {"downloads": 1}}`: a missing counter starts at the increment. -/
def incDownloads (wp : Doc) : Doc :=
  Doc.set wp "downloads"
    (match Doc.get wp "downloads" with
     | some (.vInt n) => .vInt (n + 1)
     | _ => .vInt 1)

/-- Endpoint `download_wallpaper` (main.py lines 243-251) given the authenticated user and
the result of the wallpaper lookup: 404 when absent; 402 (store untouched) when
the user's `subscribed` flag is falsy; otherwise increment `downloads` and
return the stored `image_url`. The second component is the post-state of the
looked-up wallpaper. -/
def download_wallpaper (current_user : Doc) (wp0 : Option Doc) :
    Except HErr Doc × Option Doc :=
  match wp0 with
  | none => (.error ⟨404, "Wallpaper not found"⟩, none)
  | some wp =>
    if ¬ truthy (Doc.get current_user "subscribed") then
      (.error ⟨402, "Subscription required for full-resolution download"⟩, some wp)
    else
      (.ok [("url", Doc.pyGet wp "image_url")], some (incDownloads wp))

/-- Endpoint `admin_create_wallpaper` (main.py lines 255-266): 403 unless
`current_user.get("role") == "admin"`; otherwise insert the document (with a
zeroed downloads counter and timestamps) and return it with its new id. -/
def admin_create_wallpaper (now : Int) (newId : String) (store : List Doc)
    (current_user : Doc) (body : Doc) : Except HErr (List Doc × Doc) :=
  if Doc.pyGet current_user "role" ≠ .vStr "admin" then .error ⟨403, "Admin only"⟩
  else
    let doc := body ++ [("downloads", .vInt 0), ("created_at", .vInt now),
                        ("updated_at", .vInt now)]
    .ok (store ++ [doc], ("id", .vStr newId) :: doc)

/-- The sample wallpapers seeded by `seed_sample` (main.py lines 274-303),
with the list-valued `tags` field omitted (no claim touches it). -/
def SAMPLE_WALLPAPERS : List Doc :=
  [[("title", .vStr "Galactic Neon Wave"), ("category", .vStr "scenery"),
    ("image_url", .vStr "https://images.unsplash.com/photo-1500530855697-b586d89ba3ee"),
    ("thumbnail_url", .vStr "https://images.unsplash.com/photo-1500530855697-b586d89ba3ee?w=1200")],
   [("title", .vStr "Mystic Forest"), ("category", .vStr "nature"),
    ("image_url", .vStr "https://images.unsplash.com/photo-1501785888041-af3ef285b470"),
    ("thumbnail_url", .vStr "https://images.unsplash.com/photo-1501785888041-af3ef285b470?w=1200")],
   [("title", .vStr "City Night Drive"), ("category", .vStr "scenery"),
    ("image_url", .vStr "https://images.unsplash.com/photo-1508057198894-247b23fe5ade"),
    ("thumbnail_url", .vStr "https://images.unsplash.com/photo-1508057198894-247b23fe5ade?w=1200")],
   [("title", .vStr "Anime Neon Alley"), ("category", .vStr "anime"),
    ("image_url", .vStr "https://images.unsplash.com/photo-1542396601-dca920ea2807"),
    ("thumbnail_url", .vStr "https://images.unsplash.com/photo-1542396601-dca920ea2807?w=1200")]]

/-- One step of the seeding loop: skip when a wallpaper with the same title
exists, else insert the sample extended with defaults. -/
def seedOne (now : Int) (store : List Doc) (s : Doc) : List Doc :=
  if store.any (fun w => Doc.get w "title" == Doc.get s "title") then store
  else store ++ [s ++ [("resolution", .vStr "3840x2160"), ("is_live", .vBool false),
                       ("downloads", .vInt 0), ("created_at", .vInt now),
                       ("updated_at", .vInt now)]]

/-- Endpoint `seed_sample` (main.py lines 270-315): 403 unless the user is an admin;
otherwise idempotently (by title) insert the samples and answer `{status: ok}`. -/
def seed_sample (now : Int) (store : List Doc) (current_user : Doc) :
    Except HErr (List Doc × Doc) :=
  if Doc.pyGet current_user "role" ≠ .vStr "admin" then .error ⟨403, "Admin only"⟩
  else .ok (SAMPLE_WALLPAPERS.foldl (seedOne now) store, [("status", .vStr "ok")])

/-- The spec's subscription invariant `subscribed == (plan != "free")` read off a
stored user document (with Python truthiness for the flag). -/
def subPlanInvariant (u : Doc) : Bool :=
  truthy (Doc.get u "subscribed") == (Doc.pyGet u "plan" != Val.vStr "free")

theorem Doc.get_set_self (d : Doc) (k : String) (v : Val) :
    Doc.get (Doc.set d k v) k = some v := by
  induction d with
  | nil => simp [Doc.set, Doc.get]
  | cons p rest ih =>
    by_cases h : p.1 = k
    · simp [Doc.set, Doc.get, h]
    · simp [Doc.set, Doc.get, h, ih]

theorem Doc.get_set_ne (d : Doc) (k k' : String) (v : Val) (h : k' ≠ k) :
    Doc.get (Doc.set d k v) k' = Doc.get d k' := by
  induction d with
  | nil => simp [Doc.set, Doc.get, Ne.symm h]
  | cons p rest ih =>
    by_cases hp : p.1 = k
    · subst hp
      simp [Doc.set, Doc.get, h, Ne.symm h]
    · by_cases hp' : p.1 = k'
      · simp [Doc.set, Doc.get, hp, hp', h]
      · simp [Doc.set, Doc.get, hp, hp', ih]

theorem partitionChar_bearer (t : String) :
    partitionChar ("Bearer " ++ t) ' ' = ("Bearer", " ", t) := rfl

theorem pyLower_bearer : pyLower "Bearer" = "bearer" := rfl

/-- Dichotomy: `verify` either yields a subject or the single 401 failure: it never
produces any other outcome. -/
theorem verify_cases (t : JwtToken) (now : Int) :
    (∃ v, verify t now = .ok v) ∨ verify t now = .error ⟨401, "Invalid token"⟩ := by
  unfold verify
  split
  · exact .inr rfl
  · split
    · exact .inr rfl
    · exact .inr rfl
    · exact .inl ⟨_, rfl⟩

/-- Unfolding of `create_access_token` with the default expiry (7 days). -/
theorem create_access_token_default (now : Int) (data : Doc) :
    create_access_token now data none
      = .signed (Doc.set data "exp" (.vInt (now + 7 * 24 * 60 * 60))) SECRET_KEY := by
  simp [create_access_token, ACCESS_TOKEN_EXPIRE_MINUTES]

/-- Test fixture: a stored user whose paid plan has already ended
(`plan_ends_at = 0`) but whose `subscribed` flag is still `true`. -/
def storedUser : Doc :=
  [("_id", .vStr "u1"), ("name", .vStr "Ada"), ("email", .vStr "a@x.com"),
   ("password_hash", .vStr "bcrypt-hash"), ("role", .vStr "user"),
   ("subscribed", .vBool true), ("plan", .vStr "pro"), ("plan_ends_at", .vInt 0)]

/-- Test fixture: every token string decodes to a valid token for `storedUser`
signed with the server key and expiring at time 2000000. -/
def testTokenOf : String → JwtToken :=
  fun _ => .signed [("sub", .vStr "u1"), ("exp", .vInt 2000000)] SECRET_KEY

/-- Test fixture: the user store containing exactly `storedUser` under id "u1". -/
def testFindUser : Val → Option Doc :=
  fun v => if v == Val.vStr "u1" then some storedUser else none

/-- Test fixture: a stored wallpaper with 5 downloads. -/
def testWallpaper : Doc :=
  [("_id", .vStr "w1"), ("title", .vStr "Nebula"), ("category", .vStr "scenery"),
   ("image_url", .vStr "https://img.example/x.jpg"), ("downloads", .vInt 5)]

/-- C1: after registration and after every successful subscribe, the invariant
`subscribed == (plan != "free")` holds on the stored user; a subscribe to a
non-free plan sets `plan_ends_at = now + 30 days`, and a subscribe to "free"
sets `plan_ends_at` to null. -/
theorem c1_subscription_invariant (now : Int) (name email ph plan : String)
    (user u' resp : Doc) :
    subPlanInvariant (registerDoc now name email ph) = true
    ∧ (subscribe now plan user = .ok (u', resp) →
        subPlanInvariant u' = true
        ∧ (plan ≠ "free" → Doc.get u' "plan_ends_at" = some (.vInt (now + 30 * 86400)))
        ∧ (plan = "free" → Doc.get u' "plan_ends_at" = some .vNull)) := by
  constructor
  · rfl
  · intro h
    unfold subscribe at h
    split at h
    · cases h
    · simp only [Except.ok.injEq, Prod.mk.injEq] at h
      obtain ⟨h1, -⟩ := h
      subst h1
      have hsub : Doc.get (Doc.set (Doc.set (Doc.set (Doc.set user "plan" (.vStr plan))
          "subscribed" (.vBool (plan != "free"))) "plan_ends_at"
          (if plan != "free" then Val.vInt (now + 30 * 86400) else Val.vNull))
          "updated_at" (.vInt now)) "subscribed" = some (.vBool (plan != "free")) := by
        rw [Doc.get_set_ne _ _ _ _ (by decide), Doc.get_set_ne _ _ _ _ (by decide),
          Doc.get_set_self]
      have hplan : Doc.get (Doc.set (Doc.set (Doc.set (Doc.set user "plan" (.vStr plan))
          "subscribed" (.vBool (plan != "free"))) "plan_ends_at"
          (if plan != "free" then Val.vInt (now + 30 * 86400) else Val.vNull))
          "updated_at" (.vInt now)) "plan" = some (.vStr plan) := by
        rw [Doc.get_set_ne _ _ _ _ (by decide), Doc.get_set_ne _ _ _ _ (by decide),
          Doc.get_set_ne _ _ _ _ (by decide), Doc.get_set_self]
      have hend : Doc.get (Doc.set (Doc.set (Doc.set (Doc.set user "plan" (.vStr plan))
          "subscribed" (.vBool (plan != "free"))) "plan_ends_at"
          (if plan != "free" then Val.vInt (now + 30 * 86400) else Val.vNull))
          "updated_at" (.vInt now)) "plan_ends_at"
          = some (if plan != "free" then Val.vInt (now + 30 * 86400) else Val.vNull) := by
        rw [Doc.get_set_ne _ _ _ _ (by decide), Doc.get_set_self]
      refine ⟨?_, ?_, ?_⟩
      · simp only [subPlanInvariant, hsub, Doc.pyGet, hplan, truthy, valTruthy,
          Option.getD_some]
        by_cases hp : plan = "free"
        · subst hp; decide
        · have h1 : (plan != "free") = true := by simp [bne_iff_ne, hp]
          have h2 : (Val.vStr plan != Val.vStr "free") = true := by
            simp [bne_iff_ne, hp]
          rw [h1, h2]
          rfl
      · intro hp
        rw [hend]
        simp [hp]
      · intro hp
        rw [hend]
        simp [hp]

/-- C1 witness: registering at time 0 and subscribing an empty user record to
"pro" both satisfy the invariant, and the plan end is 0 + 30 days. -/
theorem c1_subscription_invariant_witness :
    subPlanInvariant (registerDoc 0 "Ada" "a@x.com" "h1") = true
    ∧ subPlanInvariant
        [("plan", .vStr "pro"), ("subscribed", .vBool true),
         ("plan_ends_at", .vInt 2592000), ("updated_at", .vInt 0)] = true
    ∧ Doc.get [("plan", Val.vStr "pro"), ("subscribed", Val.vBool true),
         ("plan_ends_at", Val.vInt 2592000), ("updated_at", Val.vInt 0)] "plan_ends_at"
        = some (.vInt (0 + 30 * 86400)) := by
  have h := c1_subscription_invariant 0 "Ada" "a@x.com" "h1" "pro" []
    [("plan", .vStr "pro"), ("subscribed", .vBool true),
     ("plan_ends_at", .vInt 2592000), ("updated_at", .vInt 0)]
    [("status", .vStr "ok"), ("plan", .vStr "pro"), ("subscribed", .vBool true),
     ("plan_ends_at", .vInt 2592000)]
  have h2 := h.2 rfl
  exact ⟨h.1, h2.1, h2.2.1 (by decide)⟩

/-- C8: subscribing with any plan outside {free, pro, elite} fails with a
400 "Invalid plan" error and leaves the stored user unchanged. -/
theorem c8_invalid_plan_rejected (now : Int) (plan : String) (user : Doc)
    (h : VALID_PLANS.contains plan = false) :
    subscribe now plan user = .error ⟨400, "Invalid plan"⟩
    ∧ subscribeState now plan user = user := by
  have hm : plan ∉ VALID_PLANS := by simpa using h
  constructor
  · simp [subscribe, hm]
  · simp [subscribeState, subscribe, hm]

/-- C8 witness: the plan "gold" is rejected with 400 and the user record is
untouched. -/
theorem c8_invalid_plan_rejected_witness :
    subscribe 7 "gold" storedUser = .error ⟨400, "Invalid plan"⟩
    ∧ subscribeState 7 "gold" storedUser = storedUser :=
  c8_invalid_plan_rejected 7 "gold" storedUser (by decide)

/-- C4: downloading a missing wallpaper is a 404; a non-subscribed user gets a
402 with the wallpaper (and its downloads counter) unchanged; a subscribed user
gets the stored `image_url` unmodified and the downloads counter incremented by
exactly one. -/
theorem c4_download_semantics (user : Doc) :
    download_wallpaper user none = (.error ⟨404, "Wallpaper not found"⟩, none)
    ∧ (∀ wp, truthy (Doc.get user "subscribed") = false →
        download_wallpaper user (some wp)
          = (.error ⟨402, "Subscription required for full-resolution download"⟩, some wp))
    ∧ (∀ wp, truthy (Doc.get user "subscribed") = true →
        download_wallpaper user (some wp)
          = (.ok [("url", Doc.pyGet wp "image_url")], some (incDownloads wp)))
    ∧ (∀ wp n, Doc.get wp "downloads" = some (.vInt n) →
        Doc.get (incDownloads wp) "downloads" = some (.vInt (n + 1))) := by
  refine ⟨rfl, ?_, ?_, ?_⟩
  · intro wp hs
    simp [download_wallpaper, hs]
  · intro wp hs
    simp [download_wallpaper, hs]
  · intro wp n hn
    unfold incDownloads
    rw [hn, Doc.get_set_self]

/-- C4 witness: at the fixture user/wallpaper — 404 on a missing wallpaper,
allow-with-increment for the subscribed fixture user, and the counter goes from
5 to 6. -/
theorem c4_download_semantics_witness :
    download_wallpaper storedUser none = (.error ⟨404, "Wallpaper not found"⟩, none)
    ∧ download_wallpaper storedUser (some testWallpaper)
        = (.ok [("url", .vStr "https://img.example/x.jpg")], some (incDownloads testWallpaper))
    ∧ Doc.get (incDownloads testWallpaper) "downloads" = some (.vInt (5 + 1)) := by
  have h := c4_download_semantics storedUser
  exact ⟨h.1, h.2.2.1 testWallpaper (by decide), h.2.2.2 testWallpaper 5 (by decide)⟩

/-- C10: the admin-gated endpoints (create wallpaper, seed samples) succeed
exactly when the caller's role is "admin" and both fail with a 403 for any
other role value. -/
theorem c10_admin_gate (now : Int) (newId : String) (store : List Doc)
    (user body : Doc) :
    (Doc.pyGet user "role" = .vStr "admin" →
      (∃ r, admin_create_wallpaper now newId store user body = .ok r)
      ∧ ∃ r, seed_sample now store user = .ok r)
    ∧ (Doc.pyGet user "role" ≠ .vStr "admin" →
      admin_create_wallpaper now newId store user body = .error ⟨403, "Admin only"⟩
      ∧ seed_sample now store user = .error ⟨403, "Admin only"⟩) := by
  constructor
  · intro h
    constructor
    · exact ⟨_, by unfold admin_create_wallpaper; rw [if_neg (by simp [h])]⟩
    · exact ⟨_, by unfold seed_sample; rw [if_neg (by simp [h])]⟩
  · intro h
    constructor
    · unfold admin_create_wallpaper
      rw [if_pos h]
    · unfold seed_sample
      rw [if_pos h]

/-- C10 witness: an "admin" user passes both gates, the fixture "user" role is
rejected with 403 by both. -/
theorem c10_admin_gate_witness :
    (∃ r, admin_create_wallpaper 0 "w9" [] [("role", .vStr "admin")] [] = .ok r)
    ∧ (∃ r, seed_sample 0 [] [("role", .vStr "admin")] = .ok r)
    ∧ admin_create_wallpaper 0 "w9" [] storedUser [] = .error ⟨403, "Admin only"⟩
    ∧ seed_sample 0 [] storedUser = .error ⟨403, "Admin only"⟩ := by
  have ha := (c10_admin_gate 0 "w9" [] [("role", .vStr "admin")] []).1 (by decide)
  have hu := (c10_admin_gate 0 "w9" [] storedUser []).2 (by decide)
  exact ⟨ha.1, ha.2, hu.1, hu.2⟩

/-- C7: the content policy on a wallpaper whose stored `image_url` is the string
`s` yields `s ++ "?wm=1"` and `watermarked = true` when not entitled, and the
unchanged `s` with `watermarked = false` when entitled — both as the bare
policy and inside the listing item it feeds. -/
theorem c7_watermark_policy (w : Doc) (s : String)
    (h : Doc.pyGet w "image_url" = .vStr s) :
    applyContentPolicy (.vStr s) false = (.vStr (s ++ "?wm=1"), true)
    ∧ applyContentPolicy (.vStr s) true = (.vStr s, false)
    ∧ Doc.get (wallpaperItem false w) "image_url" = some (.vStr (s ++ "?wm=1"))
    ∧ Doc.get (wallpaperItem false w) "watermarked" = some (.vBool true)
    ∧ Doc.get (wallpaperItem true w) "image_url" = some (.vStr s)
    ∧ Doc.get (wallpaperItem true w) "watermarked" = some (.vBool false) := by
  refine ⟨rfl, rfl, ?_, ?_, ?_, ?_⟩ <;>
    simp [wallpaperItem, Doc.get, applyContentPolicy, h, Val.pyStr]

/-- C7 witness: the fixture wallpaper is served as `...x.jpg?wm=1`, watermarked,
when not entitled, and untouched when entitled. -/
theorem c7_watermark_policy_witness :
    Doc.get (wallpaperItem false testWallpaper) "image_url"
      = some (.vStr ("https://img.example/x.jpg" ++ "?wm=1"))
    ∧ Doc.get (wallpaperItem false testWallpaper) "watermarked" = some (.vBool true)
    ∧ Doc.get (wallpaperItem true testWallpaper) "image_url"
      = some (.vStr "https://img.example/x.jpg")
    ∧ Doc.get (wallpaperItem true testWallpaper) "watermarked" = some (.vBool false) := by
  have h := c7_watermark_policy testWallpaper "https://img.example/x.jpg" (by decide)
  exact ⟨h.2.2.1, h.2.2.2.1, h.2.2.2.2.1, h.2.2.2.2.2⟩

/-- C6: a listing request with a missing header, an empty header, or a header
whose token does not decode (malformed bytes, wrong signature, or elapsed
expiry) is answered — not rejected — with `subscribed = false` and every item
watermarked. -/
theorem c6_anonymous_listing (tokenOf : String → JwtToken) (now : Int)
    (findUser : Val → Option Doc) (wallpapers : List Doc) (category : Option String)
    (limit : Nat) (authorization : Option String)
    (h : authorization = none ∨ ∃ a, authorization = some a ∧
          (a = "" ∨ jwtDecode (tokenOf (partitionChar a ' ').2.2) SECRET_KEY now
            = .error ())) :
    (list_wallpapers tokenOf now findUser wallpapers category limit
        authorization).subscribed = false
    ∧ ∀ item ∈ (list_wallpapers tokenOf now findUser wallpapers category limit
        authorization).items,
        Doc.get item "watermarked" = some (.vBool true) := by
  have hsub : listSubscribed tokenOf now findUser authorization = false := by
    rcases h with rfl | ⟨a, rfl, h2⟩
    · rfl
    · rcases h2 with rfl | hd
      · rfl
      · by_cases ha : a = ""
        · simp [listSubscribed, ha]
        · simp [listSubscribed, ha, hd]
  constructor
  · simp [list_wallpapers, hsub]
  · intro item hitem
    simp only [list_wallpapers, hsub, List.mem_map] at hitem
    obtain ⟨w, -, rfl⟩ := hitem
    simp [wallpaperItem, Doc.get, applyContentPolicy]

/-- C6 witness: a garbage bearer token over the fixture store yields an
unsubscribed listing whose only item is watermarked. -/
theorem c6_anonymous_listing_witness :
    (list_wallpapers (fun _ => JwtToken.malformed) 1000000 testFindUser
        [testWallpaper] none 50 (some "Bearer garbage")).subscribed = false
    ∧ ∀ item ∈ (list_wallpapers (fun _ => JwtToken.malformed) 1000000 testFindUser
        [testWallpaper] none 50 (some "Bearer garbage")).items,
        Doc.get item "watermarked" = some (.vBool true) :=
  c6_anonymous_listing (fun _ => JwtToken.malformed) 1000000 testFindUser
    [testWallpaper] none 50 (some "Bearer garbage")
    (Or.inr ⟨"Bearer garbage", rfl, Or.inr rfl⟩)

/-- C9: a token issued for subject `sub` at time `now` and verified immediately
returns `sub`, and the token's claims carry the absolute expiry
`now + 7 days`. -/
theorem c9_issue_verify_roundtrip (now : Int) (sub : String) :
    verify (create_access_token now [("sub", .vStr sub)] none) now = .ok (.vStr sub)
    ∧ Doc.get (create_access_token now [("sub", .vStr sub)] none).claims "exp"
        = some (.vInt (now + 7 * 24 * 60 * 60)) := by
  rw [create_access_token_default]
  constructor
  · have hne : ¬ (now + 7 * 24 * 60 * 60 < now) := by omega
    simp [verify, jwtDecode, Doc.set, Doc.get, hne]
  · rfl

/-- Unfolding of `get_current_user` on a present header (definitional). -/
theorem gcu_some_eq (tokenOf : String → JwtToken) (now : Int)
    (findUser : Val → Option Doc) (auth : String) :
    get_current_user tokenOf now findUser (some auth)
      = (if pyLower (partitionChar auth ' ').1 ≠ "bearer" ∨ (partitionChar auth ' ').2.2 = ""
         then .error ⟨401, "Invalid auth header"⟩
         else
           match verify (tokenOf (partitionChar auth ' ').2.2) now with
           | .error e => .error e
           | .ok uid =>
             match findUser uid with
             | none => .error ⟨401, "User not found"⟩
             | some user =>
               .ok (Doc.pop (Doc.set user "id" (.vStr (Val.pyStr (Doc.pyGet user "_id")))) "_id")) := rfl

/-- A successful decode returns exactly the token's claims. -/
theorem jwtDecode_ok_claims (t : JwtToken) (key : String) (now : Int) (d : Doc)
    (h : jwtDecode t key now = .ok d) : t.claims = d := by
  cases t with
  | malformed => exact absurd h (by simp [jwtDecode])
  | signed c k =>
    simp only [jwtDecode] at h
    simp only [JwtToken.claims]
    split at h
    · cases h
    · split at h
      · split at h
        · cases h
        · exact Except.ok.inj h
      · exact Except.ok.inj h

/-- C5: authentication failures are always the typed 401 error — a missing
header, and (behind a well-formed bearer header) malformed bytes, a signature
under a different key, an elapsed expiry, or an absent `sub` claim; moreover
every possible outcome of `get_current_user` is either a user or some 401, so
no input escapes as an unhandled failure. -/
theorem c5_auth_failures_are_401 (tokenOf : String → JwtToken) (now : Int)
    (findUser : Val → Option Doc) :
    get_current_user tokenOf now findUser none = .error ⟨401, "Not authenticated"⟩
    ∧ (∀ auth, (∃ u, get_current_user tokenOf now findUser (some auth) = .ok u)
        ∨ ∃ d, get_current_user tokenOf now findUser (some auth) = .error ⟨401, d⟩)
    ∧ (∀ t : String, t ≠ "" → tokenOf t = .malformed →
        get_current_user tokenOf now findUser (some ("Bearer " ++ t))
          = .error ⟨401, "Invalid token"⟩)
    ∧ (∀ claims k, k ≠ SECRET_KEY →
        verify (.signed claims k) now = .error ⟨401, "Invalid token"⟩)
    ∧ (∀ claims e, Doc.get claims "exp" = some (.vInt e) → e < now →
        verify (.signed claims SECRET_KEY) now = .error ⟨401, "Invalid token"⟩)
    ∧ (∀ claims k, Doc.get claims "sub" = none →
        verify (.signed claims k) now = .error ⟨401, "Invalid token"⟩) := by
  refine ⟨rfl, ?_, ?_, ?_, ?_, ?_⟩
  · intro auth
    by_cases hif : pyLower (partitionChar auth ' ').1 ≠ "bearer"
        ∨ (partitionChar auth ' ').2.2 = ""
    · exact .inr ⟨"Invalid auth header", by rw [gcu_some_eq, if_pos hif]⟩
    · rcases verify_cases (tokenOf (partitionChar auth ' ').2.2) now with ⟨v, hv⟩ | hv
      · cases hf : findUser v with
        | none =>
          exact .inr ⟨"User not found", by rw [gcu_some_eq, if_neg hif]; simp [hv, hf]⟩
        | some u =>
          refine .inl ⟨Doc.pop (Doc.set u "id" (.vStr (Val.pyStr (Doc.pyGet u "_id")))) "_id", ?_⟩
          rw [gcu_some_eq, if_neg hif]
          simp [hv, hf]
      · exact .inr ⟨"Invalid token", by rw [gcu_some_eq, if_neg hif]; simp [hv]⟩
  · intro t ht hm
    simp only [get_current_user, partitionChar_bearer]
    rw [if_neg (by simp [pyLower_bearer, ht]), hm]
    rfl
  · intro claims k hk
    unfold verify jwtDecode
    simp [hk]
  · intro claims e he hlt
    unfold verify jwtDecode
    simp [he, hlt]
  · intro claims k hs
    unfold verify
    split
    · rfl
    · rename_i payload heq
      have hpc : claims = payload := jwtDecode_ok_claims (.signed claims k) SECRET_KEY now payload heq
      rw [← hpc, hs]

/-- C5 witness: concrete 401s — no header; malformed bearer token; token signed
with the wrong key; expired token; token without a subject claim. -/
theorem c5_auth_failures_are_401_witness :
    get_current_user (fun _ => JwtToken.malformed) 0 (fun _ => none) none
      = .error ⟨401, "Not authenticated"⟩
    ∧ get_current_user (fun _ => JwtToken.malformed) 0 (fun _ => none) (some "Bearer x")
      = .error ⟨401, "Invalid token"⟩
    ∧ verify (.signed [("sub", .vStr "u1")] "wrong-key") 0 = .error ⟨401, "Invalid token"⟩
    ∧ verify (.signed [("sub", .vStr "u1"), ("exp", .vInt (-5))] SECRET_KEY) 0
      = .error ⟨401, "Invalid token"⟩
    ∧ verify (.signed [("exp", .vInt 99)] SECRET_KEY) 0 = .error ⟨401, "Invalid token"⟩ := by
  have h := c5_auth_failures_are_401 (fun _ => JwtToken.malformed) 0 (fun _ => none)
  exact ⟨h.1, h.2.2.1 "x" (by decide) rfl,
    h.2.2.2.1 [("sub", .vStr "u1")] "wrong-key" (by decide),
    h.2.2.2.2.1 [("sub", .vStr "u1"), ("exp", .vInt (-5))] (-5) (by decide) (by decide),
    h.2.2.2.2.2 [("exp", .vInt 99)] SECRET_KEY (by decide)⟩

/-- C2: the code does NOT gate on `plan_ends_at`. The fixture user's plan ended
at time 0, yet at time 1000000 a valid token for that user yields a listing
with `subscribed = true` and an unwatermarked item, and the download endpoint
allows the download and increments the counter — contradicting the claim that
an elapsed plan is treated as unsubscribed/free. -/
theorem c2_expired_plan_still_entitled :
    Doc.get storedUser "subscribed" = some (.vBool true)
    ∧ Doc.get storedUser "plan_ends_at" = some (.vInt 0)
    ∧ (0 : Int) < 1000000
    ∧ (list_wallpapers testTokenOf 1000000 testFindUser [testWallpaper] none 50
        (some "Bearer tok")).subscribed = true
    ∧ (list_wallpapers testTokenOf 1000000 testFindUser [testWallpaper] none 50
        (some "Bearer tok")).items = [wallpaperItem true testWallpaper]
    ∧ Doc.get (wallpaperItem true testWallpaper) "watermarked" = some (.vBool false)
    ∧ download_wallpaper storedUser (some testWallpaper)
        = (.ok [("url", .vStr "https://img.example/x.jpg")], some (incDownloads testWallpaper))
    ∧ Doc.get (incDownloads testWallpaper) "downloads" = some (.vInt 6) :=
  ⟨rfl, rfl, by decide, rfl, rfl, rfl, rfl, rfl⟩

/-- C3: `get_current_user` (and hence `me`) replaces `_id` by a string `id`
but never strips `password_hash`: at the fixture user the `me` response still
contains the stored password hash — contradicting the claim that no password
hash field is present. -/
theorem c3_me_leaks_password_hash :
    ∃ u, me testTokenOf 1000000 testFindUser (some "Bearer tok") = .ok u
    ∧ Doc.get u "password_hash" = some (.vStr "bcrypt-hash")
    ∧ Doc.get u "id" = some (.vStr "u1")
    ∧ Doc.get u "_id" = none :=
  ⟨_, rfl, rfl, rfl, rfl⟩
